import Mathlib

/-!
Verification of the smart-hotel control core (ESP32 firmware) against its
natural-language specification.

The development shallowly embeds the control-plane code of
src/esp32/src/app/thermostat/thermostat_fan_control.cpp,
src/esp32/src/app/thermostat/thermostat_rtos.cpp,
src/esp32/src/app/room/room_logic.cpp,
src/esp32/src/hal/communication/hal_mqtt/hal_mqtt.cpp and
src/esp32/src/HAL/DHT/DHT.cpp.

Modelling conventions:
- C float temperatures are modelled as rationals.  Every constant involved
  (0.5, 1.5, 3.0, 15.0, 35.0, 22.0, 1.0) and every comparison performed by the
  embedded code is exact in IEEE single precision over the operating range, so
  the rational model is faithful for the properties proved here.
- Mutation of the static records (g_status in thermostat_fan_control.cpp,
  room_status in room_logic.cpp) is modelled by explicit state passing.
- Hardware outputs (the three fan-speed indicator LEDs, the two PWM channels)
  are modelled as extra fields of the state records; LED_ON/LED_OFF/PWM_Write
  write those fields.  Serial logging has no modelled effect.
- A NaN float returned by a sensor driver is modelled as the value none of an
  Option type.
- FreeRTOS event-group bits are modelled as a record of booleans; raising a
  bit sets the boolean.
-/

/-- Absolute value on rationals written so that the kernel can evaluate it;
models the C abs/fabs calls on floats. -/
def ratAbs (q : ℚ) : ℚ :=
  if q < 0 then -q else q

theorem ratAbs_eq_abs (q : ℚ) : ratAbs q = |q| := by
  unfold ratAbs
  split
  · exact (abs_of_neg (by assumption)).symm
  · exact (abs_of_nonneg (by linarith [not_lt.mp (by assumption)])).symm

/-- Mirrors Thermostat_Mode_t of thermostat_types.h. -/
inductive Thermostat_Mode_t where
  | THERMOSTAT_MODE_OFF
  | THERMOSTAT_MODE_AUTO
  | THERMOSTAT_MODE_MANUAL
deriving DecidableEq, Repr

/-- Mirrors Fan_Speed_t of thermostat_types.h. -/
inductive Fan_Speed_t where
  | FAN_SPEED_OFF
  | FAN_SPEED_LOW
  | FAN_SPEED_MEDIUM
  | FAN_SPEED_HIGH
deriving DecidableEq, Repr

/-- Numeric value of each Fan_Speed_t enumerator, as declared in
thermostat_types.h (FAN_SPEED_OFF = 0, then 1, 2, 3).  Used to order the
output levels. -/
def fanLevel : Fan_Speed_t → Nat
  | .FAN_SPEED_OFF => 0
  | .FAN_SPEED_LOW => 1
  | .FAN_SPEED_MEDIUM => 2
  | .FAN_SPEED_HIGH => 3

/-- POT_TO_TEMP_MIN of thermostat_config.h (15.0f). -/
def POT_TO_TEMP_MIN : ℚ := 15

/-- POT_TO_TEMP_MAX of thermostat_config.h (35.0f). -/
def POT_TO_TEMP_MAX : ℚ := 35

/-- TARGET_TEMP_THRESHOLD of thermostat_config.h (1 degree Celsius). -/
def TARGET_TEMP_THRESHOLD : ℚ := 1

/-- Mirrors Thermostat_Status_t of thermostat_types.h (the g_status record of
thermostat_fan_control.cpp), extended with the states of the three fan-speed
indicator LED pins (LED_LOW_SPEED, LED_MED_SPEED, LED_HIGH_SPEED) which the
source drives through LED_ON/LED_OFF. -/
structure Thermostat_Status_t where
  temperature : ℚ
  humidity : ℚ
  target_temp : ℚ
  fan_speed : Fan_Speed_t
  mode : Thermostat_Mode_t
  heating : Bool
  led_low : Bool
  led_med : Bool
  led_high : Bool
deriving DecidableEq, Repr

/-- Initial value of g_status in thermostat_fan_control.cpp lines 19-26;
the LED pins start off (Thermostat_Init_Hardware turns all three off). -/
def g_status_init : Thermostat_Status_t :=
  { temperature := 0
  , humidity := 0
  , target_temp := 22
  , fan_speed := .FAN_SPEED_OFF
  , mode := .THERMOSTAT_MODE_AUTO
  , heating := false
  , led_low := false
  , led_med := false
  , led_high := false }

/-- Thermostat_SetMode of thermostat_fan_control.cpp lines 68-76: stores the
mode into g_status and logs; it does nothing else. -/
def Thermostat_SetMode (mode : Thermostat_Mode_t) (s : Thermostat_Status_t) :
    Thermostat_Status_t :=
  { s with mode := mode }

/-- Thermostat_GetMode of thermostat_fan_control.cpp lines 78-82. -/
def Thermostat_GetMode (s : Thermostat_Status_t) : Thermostat_Mode_t :=
  s.mode

/-- Thermostat_StoreTemp of thermostat_fan_control.cpp lines 86-96 (the mutex
take/give brackets a pure update; the guard skips the write when the value is
unchanged). -/
def Thermostat_StoreTemp (temp : ℚ) (s : Thermostat_Status_t) :
    Thermostat_Status_t :=
  if s.temperature ≠ temp then { s with temperature := temp } else s

/-- Thermostat_GetTemp of thermostat_fan_control.cpp lines 98-110. -/
def Thermostat_GetTemp (s : Thermostat_Status_t) : ℚ :=
  s.temperature

/-- Thermostat_SetTargetTemp of thermostat_fan_control.cpp lines 112-133:
range-checks against [POT_TO_TEMP_MIN, POT_TO_TEMP_MAX], writes only when the
value differs, and returns whether a write happened. -/
def Thermostat_SetTargetTemp (target_temp : ℚ) (s : Thermostat_Status_t) :
    Thermostat_Status_t × Bool :=
  if POT_TO_TEMP_MIN ≤ target_temp ∧ target_temp ≤ POT_TO_TEMP_MAX then
    if s.target_temp ≠ target_temp then
      ({ s with target_temp := target_temp }, true)
    else (s, false)
  else (s, false)

/-- Thermostat_GetTargetTemp of thermostat_fan_control.cpp lines 135-147. -/
def Thermostat_GetTargetTemp (s : Thermostat_Status_t) : ℚ :=
  s.target_temp

/-- updateLEDs of thermostat_fan_control.cpp lines 149-174: records the speed
in g_status.fan_speed, then drives the indicator LEDs; the FAN_SPEED_OFF and
default cases perform no LED writes. -/
def updateLEDs (speed : Fan_Speed_t) (s : Thermostat_Status_t) :
    Thermostat_Status_t :=
  let s1 := { s with fan_speed := speed }
  match s1.fan_speed with
  | .FAN_SPEED_LOW => { s1 with led_med := false, led_high := false, led_low := true }
  | .FAN_SPEED_MEDIUM => { s1 with led_med := true, led_high := false, led_low := false }
  | .FAN_SPEED_HIGH => { s1 with led_med := false, led_high := true, led_low := false }
  | .FAN_SPEED_OFF => s1

/-- Thermostat_SetFanSpeed of thermostat_fan_control.cpp lines 176-187: only
acts when the current mode is THERMOSTAT_MODE_MANUAL. -/
def Thermostat_SetFanSpeed (speed : Fan_Speed_t) (s : Thermostat_Status_t) :
    Thermostat_Status_t :=
  if s.mode = .THERMOSTAT_MODE_MANUAL then
    updateLEDs speed { s with fan_speed := speed }
  else s

/-- Thermostat_GetFanSpeed of thermostat_fan_control.cpp lines 189-193. -/
def Thermostat_GetFanSpeed (s : Thermostat_Status_t) : Fan_Speed_t :=
  s.fan_speed

/-- Fan_Logic of thermostat_fan_control.cpp lines 209-231: the AUTO-mode
deadband mapping from the absolute temperature error to a fan speed,
applied to the state through updateLEDs. -/
def Fan_Logic (target_temp current_temp : ℚ) (s : Thermostat_Status_t) :
    Thermostat_Status_t :=
  let diff := ratAbs (current_temp - target_temp)
  if diff ≤ 1/2 then
    updateLEDs .FAN_SPEED_OFF { s with fan_speed := .FAN_SPEED_OFF }
  else if diff ≤ 3/2 then
    updateLEDs .FAN_SPEED_LOW { s with fan_speed := .FAN_SPEED_LOW }
  else if diff ≤ 3 then
    updateLEDs .FAN_SPEED_MEDIUM { s with fan_speed := .FAN_SPEED_MEDIUM }
  else
    updateLEDs .FAN_SPEED_HIGH { s with fan_speed := .FAN_SPEED_HIGH }

/-- The speed selected by Fan_Logic, as a function of its two arguments alone
(the branch structure of thermostat_fan_control.cpp lines 211-228). -/
def Fan_Logic_level (target_temp current_temp : ℚ) : Fan_Speed_t :=
  let diff := ratAbs (current_temp - target_temp)
  if diff ≤ 1/2 then .FAN_SPEED_OFF
  else if diff ≤ 3/2 then .FAN_SPEED_LOW
  else if diff ≤ 3 then .FAN_SPEED_MEDIUM
  else .FAN_SPEED_HIGH

/-- Mirrors Room_Mode_t of room_types.h. -/
inductive Room_Mode_t where
  | ROOM_MODE_OFF
  | ROOM_MODE_MANUAL
  | ROOM_MODE_AUTO
deriving DecidableEq, Repr

/-- Mirrors Room_LED_State_t of room_types.h. -/
inductive Room_LED_State_t where
  | ROOM_LED_OFF
  | ROOM_LED_ON
deriving DecidableEq, Repr

/-- Mirrors Room_LED_t of room_types.h; ROOM_LED_COUNT is the number of
constructors, so the led >= ROOM_LED_COUNT guard of the source can never fire
in the model. -/
inductive Room_LED_t where
  | ROOM_LED_1
  | ROOM_LED_2
deriving DecidableEq, Repr

/-- Mirrors Room_ControlSource_t of room_types.h. -/
inductive Room_ControlSource_t where
  | ROOM_CONTROL_BUTTON
  | ROOM_CONTROL_MQTT
  | ROOM_CONTROL_AUTO
deriving DecidableEq, Repr

/-- Mirrors Room_AutoDimMode_t of room_types.h (deprecated interface). -/
inductive Room_AutoDimMode_t where
  | ROOM_AUTO_DIM_DISABLED
  | ROOM_AUTO_DIM_ENABLED
deriving DecidableEq, Repr

/-- Mirrors Room_Status_t of room_types.h (the room_status record of
room_logic.cpp), extended with: the two PWM hardware outputs written through
PWM_Write on channels ROOM_PWM_CHANNEL_LED1/2, and the static variable
last_brightness_update of room_logic.cpp.  Brightness values are uint8_t,
modelled as Nat (all values written are in [0, 255]).  The millis() clock is
modelled as a Nat passed explicitly to the time-dependent operations;
unsigned wrap-around is not modelled. -/
structure Room_Status_t where
  mode : Room_Mode_t
  led1_state : Room_LED_State_t
  led2_state : Room_LED_State_t
  led1_brightness : Nat
  led2_brightness : Nat
  ldr_raw_value : Nat
  ldr_percentage : Nat
  mqtt_connected : Bool
  pwm1 : Nat
  pwm2 : Nat
  last_brightness_update : Nat
deriving DecidableEq, Repr

/-- Room_Logic_Init state of room_logic.cpp lines 29-36 (PWM outputs start
at 0, the static timestamp starts at 0). -/
def room_status_init : Room_Status_t :=
  { mode := .ROOM_MODE_MANUAL
  , led1_state := .ROOM_LED_OFF
  , led2_state := .ROOM_LED_OFF
  , led1_brightness := 255
  , led2_brightness := 255
  , ldr_raw_value := 0
  , ldr_percentage := 0
  , mqtt_connected := false
  , pwm1 := 0
  , pwm2 := 0
  , last_brightness_update := 0 }

/-- Room_Logic_TurnOffAllLEDs of room_logic.cpp lines 384-390. -/
def Room_Logic_TurnOffAllLEDs (s : Room_Status_t) : Room_Status_t :=
  { s with led1_state := .ROOM_LED_OFF, led2_state := .ROOM_LED_OFF
         , pwm1 := 0, pwm2 := 0 }

/-- Room_Logic_ApplyLEDState of room_logic.cpp lines 392-415: in OFF mode it
zeroes both PWM channels; otherwise it drives the requested channel from the
stored state and brightness. -/
def Room_Logic_ApplyLEDState (led : Room_LED_t) (s : Room_Status_t) :
    Room_Status_t :=
  if s.mode = .ROOM_MODE_OFF then { s with pwm1 := 0, pwm2 := 0 }
  else
    match led with
    | .ROOM_LED_1 =>
        { s with pwm1 := if s.led1_state = .ROOM_LED_ON then s.led1_brightness else 0 }
    | .ROOM_LED_2 =>
        { s with pwm2 := if s.led2_state = .ROOM_LED_ON then s.led2_brightness else 0 }

/-- Room_Logic_CalculateBrightness of room_logic.cpp lines 417-439, with the
thresholds of room_config.h (LOW 30, HIGH 70, MAX 255, MIN 51).  The Arduino
map(x, 30, 70, 255, 51) call is (x - 30) * (51 - 255) / (70 - 30) + 255 over
C long integers, whose division truncates toward zero (Int.tdiv). -/
def Room_Logic_CalculateBrightness (light_percentage : Nat) : Nat :=
  if light_percentage < 30 then 255
  else if light_percentage > 70 then 51
  else
    (Int.tdiv ((light_percentage - 30 : Int) * (51 - 255)) (70 - 30) + 255).toNat

/-- Room_Logic_UpdateAutoMode of room_logic.cpp lines 218-253: only in AUTO
mode, throttled to one update per ROOM_LED_UPDATE_INTERVAL (100 ms), and only
re-applying the outputs when the computed brightness differs from the stored
one. -/
def Room_Logic_UpdateAutoMode (now : Nat) (s : Room_Status_t) : Room_Status_t :=
  if s.mode ≠ .ROOM_MODE_AUTO then s
  else if now - s.last_brightness_update < 100 then s
  else
    let s1 := { s with last_brightness_update := now }
    let new_brightness := Room_Logic_CalculateBrightness s1.ldr_percentage
    if new_brightness ≠ s1.led1_brightness then
      let s2 := { s1 with led1_brightness := new_brightness
                        , led2_brightness := new_brightness
                        , led1_state := .ROOM_LED_ON
                        , led2_state := .ROOM_LED_ON }
      Room_Logic_ApplyLEDState .ROOM_LED_2 (Room_Logic_ApplyLEDState .ROOM_LED_1 s2)
    else s1

/-- Room_Logic_SetMode of room_logic.cpp lines 60-97: stores the mode, then
runs the mode-specific entry action (OFF turns everything off, MANUAL resets
brightness to maximum and re-applies, AUTO turns both LEDs on and immediately
calls Room_Logic_UpdateAutoMode). -/
def Room_Logic_SetMode (mode : Room_Mode_t) (now : Nat) (s : Room_Status_t) :
    Room_Status_t :=
  let s1 := { s with mode := mode }
  match mode with
  | .ROOM_MODE_OFF => Room_Logic_TurnOffAllLEDs s1
  | .ROOM_MODE_MANUAL =>
      let s2 := { s1 with led1_brightness := 255, led2_brightness := 255 }
      Room_Logic_ApplyLEDState .ROOM_LED_2 (Room_Logic_ApplyLEDState .ROOM_LED_1 s2)
  | .ROOM_MODE_AUTO =>
      let s2 := { s1 with led1_state := .ROOM_LED_ON, led2_state := .ROOM_LED_ON }
      Room_Logic_UpdateAutoMode now s2

/-- Room_Logic_GetMode of room_logic.cpp lines 99-102. -/
def Room_Logic_GetMode (s : Room_Status_t) : Room_Mode_t :=
  s.mode

/-- Room_Logic_SetLED of room_logic.cpp lines 118-157: rejected when the mode
is OFF, and rejected when the mode is AUTO unless the source is the automatic
algorithm; otherwise stores the state and applies it to the hardware. -/
def Room_Logic_SetLED (led : Room_LED_t) (state : Room_LED_State_t)
    (source : Room_ControlSource_t) (s : Room_Status_t) : Room_Status_t :=
  if s.mode = .ROOM_MODE_OFF then s
  else if s.mode = .ROOM_MODE_AUTO ∧ source ≠ .ROOM_CONTROL_AUTO then s
  else
    let s1 :=
      match led with
      | .ROOM_LED_1 => { s with led1_state := state }
      | .ROOM_LED_2 => { s with led2_state := state }
    Room_Logic_ApplyLEDState led s1

/-- Room_Logic_SetAutoDimMode of room_logic.cpp lines 191-199 (deprecated
interface mapped onto the mode system). -/
def Room_Logic_SetAutoDimMode (mode : Room_AutoDimMode_t) (now : Nat)
    (s : Room_Status_t) : Room_Status_t :=
  if mode = .ROOM_AUTO_DIM_ENABLED then Room_Logic_SetMode .ROOM_MODE_AUTO now s
  else Room_Logic_SetMode .ROOM_MODE_MANUAL now s

/-- Models the per-byte C tolower used by strcasecmp: ASCII uppercase letters
(codes 65-90) are shifted to lowercase, every other character is returned
unchanged. -/
def charToLower (c : Char) : Char :=
  if 65 ≤ c.toNat ∧ c.toNat ≤ 90 then Char.ofNat (c.toNat + 32) else c

/-- ASCII lower-casing of a whole string, character by character. -/
def strLower (s : String) : String :=
  String.mk (s.data.map charToLower)

/-- Models strcasecmp(a, b) == 0: ASCII case-insensitive string equality. -/
def strCaseEq (a b : String) : Bool :=
  strLower a == strLower b

/-- Room_Logic_ParseLEDState, the identical function compiled twice: as a
static in room_logic.cpp lines 441-460 and externally in helpers.cpp lines
32-51.  Note that "ON", "1", "OFF" and "0" are compared with strcmp (exact,
case-sensitive) while "true", "yes", "false", "no" are compared with
strcasecmp.  The 0xFF invalid sentinel is modelled as none. -/
def Room_Logic_ParseLEDState (payload : String) : Option Room_LED_State_t :=
  if payload == "ON" || payload == "1" ||
     strCaseEq payload "true" || strCaseEq payload "yes" then
    some .ROOM_LED_ON
  else if payload == "OFF" || payload == "0" ||
          strCaseEq payload "false" || strCaseEq payload "no" then
    some .ROOM_LED_OFF
  else none

/-- Room_Logic_ParseMode of helpers.cpp lines 5-27 (and the identical static
of room_logic.cpp lines 487-509).  The 0xFF invalid sentinel is none. -/
def Room_Logic_ParseMode (payload : String) : Option Room_Mode_t :=
  if strCaseEq payload "OFF" || payload == "0" then
    some .ROOM_MODE_OFF
  else if strCaseEq payload "MANUAL" || payload == "1" || strCaseEq payload "MAN" then
    some .ROOM_MODE_MANUAL
  else if strCaseEq payload "AUTO" || payload == "2" || strCaseEq payload "AUTOMATIC" then
    some .ROOM_MODE_AUTO
  else none

/-- Room_Logic_ParseAutoDimMode of helpers.cpp lines 56-79 (and the identical
static of room_logic.cpp lines 462-485). -/
def Room_Logic_ParseAutoDimMode (payload : String) : Option Room_AutoDimMode_t :=
  if payload == "ON" || payload == "1" || strCaseEq payload "ENABLED" ||
     strCaseEq payload "ENABLE" || strCaseEq payload "true" || strCaseEq payload "yes" then
    some .ROOM_AUTO_DIM_ENABLED
  else if payload == "OFF" || payload == "0" || strCaseEq payload "DISABLED" ||
          strCaseEq payload "DISABLE" || strCaseEq payload "false" || strCaseEq payload "no" then
    some .ROOM_AUTO_DIM_DISABLED
  else none

/-- ParseMode of hal_mqtt.cpp lines 24-33 (thermostat mode): case-insensitive
match of off/auto/manual, with THERMOSTAT_MODE_OFF returned as the DEFAULT for
every unrecognized payload ("Default to OFF for safety"). -/
def ParseMode (mode_str : String) : Thermostat_Mode_t :=
  if strCaseEq mode_str "off" then .THERMOSTAT_MODE_OFF
  else if strCaseEq mode_str "auto" then .THERMOSTAT_MODE_AUTO
  else if strCaseEq mode_str "manual" then .THERMOSTAT_MODE_MANUAL
  else .THERMOSTAT_MODE_OFF

/-- ParseFanSpeed of hal_mqtt.cpp lines 38-49, defaulting to FAN_SPEED_OFF. -/
def ParseFanSpeed (speed_str : String) : Fan_Speed_t :=
  if strCaseEq speed_str "off" || speed_str == "0" then .FAN_SPEED_OFF
  else if strCaseEq speed_str "low" || speed_str == "1" then .FAN_SPEED_LOW
  else if strCaseEq speed_str "medium" || speed_str == "2" then .FAN_SPEED_MEDIUM
  else if strCaseEq speed_str "high" || speed_str == "3" then .FAN_SPEED_HIGH
  else .FAN_SPEED_OFF

/-- Numeric value of a list of decimal digit characters. -/
def natOfDigits (cs : List Char) : Nat :=
  cs.foldl (fun a c => a * 10 + (c.toNat - 48)) 0

/-- Models atof applied to the null-terminated payload buffer: optional sign,
integer digits, optional fraction; no conversion yields 0.0.  Exponent
suffixes are not modelled (the payload grammar of the system is plain decimal
ASCII). -/
def atofQ (s : String) : ℚ :=
  let cs := s.data.dropWhile (fun c => c = ' ')
  let neg := match cs with
    | c :: _ => c == '-'
    | [] => false
  let cs1 := match cs with
    | '-' :: rest => rest
    | '+' :: rest => rest
    | _ => cs
  let intPart := cs1.takeWhile Char.isDigit
  let rest := cs1.dropWhile Char.isDigit
  let fracPart := match rest with
    | '.' :: r => r.takeWhile Char.isDigit
    | _ => []
  let v : ℚ := (natOfDigits intPart : ℚ) +
    (natOfDigits fracPart : ℚ) / ((10 : ℚ) ^ fracPart.length)
  if neg then -v else v

/-- MQTT_TOPIC_TARGET of App_cfg.h line 154. -/
def MQTT_TOPIC_TARGET : String := "home/thermostat/target"

/-- MQTT_TOPIC_CONTROL of App_cfg.h line 158. -/
def MQTT_TOPIC_CONTROL : String := "home/thermostat/control"

/-- Modelled from the spec: the MQTT_TOPIC_SET_SPEED macro used by
hal_mqtt.cpp is not defined in any header under src/ (hal_mqtt.cpp includes
app_cfg.h, which defines only the topics above); the spec says the exact
topic strings are deployment-specific, so a distinct manual-output-set topic
string is chosen here.  Only distinctness from the other topics matters. -/
def MQTT_TOPIC_SET_SPEED : String := "home/thermostat/setspeed"

/-- Modelled from the spec: the ROOM_TOPIC_MODE_CTRL macro used by
hal_mqtt.cpp and room_logic.cpp is not defined under src/; a distinct
mode-set topic string for the room subsystem is chosen here. -/
def ROOM_TOPIC_MODE_CTRL : String := "home/room/mode/control"

/-- Modelled from the spec: the ROOM_TOPIC_LED1_CTRL macro is not defined
under src/; a distinct per-output control topic string is chosen here. -/
def ROOM_TOPIC_LED1_CTRL : String := "home/room/led1/control"

/-- Modelled from the spec: the ROOM_TOPIC_LED2_CTRL macro is not defined
under src/; a distinct per-output control topic string is chosen here. -/
def ROOM_TOPIC_LED2_CTRL : String := "home/room/led2/control"

/-- Modelled from the spec: the ROOM_TOPIC_AUTO_DIM macro is not defined
under src/; a distinct (deprecated) auto-dim topic string is chosen here. -/
def ROOM_TOPIC_AUTO_DIM : String := "home/room/autodim"

/-- The thermostat event-group bits of thermostat_config.h lines 99-104,
modelled as booleans (raising a bit sets its boolean; xEventGroupSetBits is
idempotent). -/
structure EventFlags where
  temp_updated : Bool
  target_updated : Bool
  target_from_mqtt : Bool
  mode_updated : Bool
  fan_speed_updated : Bool
deriving DecidableEq, Repr

/-- All-clear initial event-flag state. -/
def flags_init : EventFlags :=
  { temp_updated := false, target_updated := false, target_from_mqtt := false
  , mode_updated := false, fan_speed_updated := false }

/-- Combined device state visible to the ingress handlers and tasks: the
thermostat record, the room record and the thermostat event group. -/
structure SystemState where
  thermo : Thermostat_Status_t
  room : Room_Status_t
  flags : EventFlags
deriving DecidableEq, Repr

/-- thermostatMqttEventSet of thermostat_rtos.cpp lines 105-110: raises
TARGET_FROM_MQTT_BIT. -/
def thermostatMqttEventSet (st : SystemState) : SystemState :=
  { st with flags := { st.flags with target_from_mqtt := true } }

/-- thermostatMqttModeEventSet of thermostat_rtos.cpp lines 112-117: raises
MODE_UPDATED_BIT. -/
def thermostatMqttModeEventSet (st : SystemState) : SystemState :=
  { st with flags := { st.flags with mode_updated := true } }

/-- thermostatMqttFanSpeedEventSet of thermostat_rtos.cpp lines 119-124:
raises FAN_SPEED_UPDATED_BIT. -/
def thermostatMqttFanSpeedEventSet (st : SystemState) : SystemState :=
  { st with flags := { st.flags with fan_speed_updated := true } }

/-- mqttCallback of hal_mqtt.cpp lines 58-79: on the target topic it parses
the payload with atof, calls Thermostat_SetTargetTemp, and raises the
target-from-network event flag only when that call reported a change.  The
32-byte buffer truncation is not modelled (all payloads considered are
shorter). -/
def mqttCallback (topic payload : String) (st : SystemState) : SystemState :=
  if topic = MQTT_TOPIC_TARGET then
    let newTarget := atofQ payload
    let r := Thermostat_SetTargetTemp newTarget st.thermo
    let st1 := { st with thermo := r.1 }
    if r.2 then thermostatMqttEventSet st1 else st1
  else st

/-- MQTT_MessageCallback of hal_mqtt.cpp lines 92-236: the registered ingress
handler, dispatching on the topic.  Publish calls (status confirmations)
touch only the network and are not part of the modelled device state.  The
128-byte truncation is not modelled (all payloads considered are shorter). -/
def MQTT_MessageCallback (topic payload : String) (now : Nat)
    (st : SystemState) : SystemState :=
  if topic = MQTT_TOPIC_TARGET then
    let target := atofQ payload
    if 15 ≤ target ∧ target ≤ 35 then
      let st1 := { st with thermo := (Thermostat_SetTargetTemp target st.thermo).1 }
      thermostatMqttEventSet st1
    else st
  else if topic = MQTT_TOPIC_CONTROL then
    let mode := ParseMode payload
    let st1 := { st with thermo := Thermostat_SetMode mode st.thermo }
    thermostatMqttModeEventSet st1
  else if topic = MQTT_TOPIC_SET_SPEED then
    let speed := ParseFanSpeed payload
    if Thermostat_GetMode st.thermo = .THERMOSTAT_MODE_MANUAL then
      thermostatMqttFanSpeedEventSet
        { st with thermo := Thermostat_SetFanSpeed speed st.thermo }
    else st
  else if topic = ROOM_TOPIC_MODE_CTRL then
    match Room_Logic_ParseMode payload with
    | some m => { st with room := Room_Logic_SetMode m now st.room }
    | none => st
  else if topic = ROOM_TOPIC_LED1_CTRL then
    if Room_Logic_GetMode st.room ≠ .ROOM_MODE_MANUAL then st
    else
      match Room_Logic_ParseLEDState payload with
      | some v =>
          { st with room := Room_Logic_SetLED .ROOM_LED_1 v .ROOM_CONTROL_MQTT st.room }
      | none => st
  else if topic = ROOM_TOPIC_LED2_CTRL then
    if Room_Logic_GetMode st.room ≠ .ROOM_MODE_MANUAL then st
    else
      match Room_Logic_ParseLEDState payload with
      | some v =>
          { st with room := Room_Logic_SetLED .ROOM_LED_2 v .ROOM_CONTROL_MQTT st.room }
      | none => st
  else if topic = ROOM_TOPIC_AUTO_DIM then
    match Room_Logic_ParseAutoDimMode payload with
    | some m => { st with room := Room_Logic_SetAutoDimMode m now st.room }
    | none => st
  else st

/-- Room_Logic_ProcessMQTTMessage of room_logic.cpp lines 301-371: the room
half of the ingress dispatch (same gating and validation as the registered
callback). -/
def Room_Logic_ProcessMQTTMessage (topic payload : String) (now : Nat)
    (s : Room_Status_t) : Room_Status_t :=
  if topic = ROOM_TOPIC_MODE_CTRL then
    match Room_Logic_ParseMode payload with
    | some m => Room_Logic_SetMode m now s
    | none => s
  else if topic = ROOM_TOPIC_LED1_CTRL then
    if s.mode ≠ .ROOM_MODE_MANUAL then s
    else
      match Room_Logic_ParseLEDState payload with
      | some v => Room_Logic_SetLED .ROOM_LED_1 v .ROOM_CONTROL_MQTT s
      | none => s
  else if topic = ROOM_TOPIC_LED2_CTRL then
    if s.mode ≠ .ROOM_MODE_MANUAL then s
    else
      match Room_Logic_ParseLEDState payload with
      | some v => Room_Logic_SetLED .ROOM_LED_2 v .ROOM_CONTROL_MQTT s
      | none => s
  else if topic = ROOM_TOPIC_AUTO_DIM then
    match Room_Logic_ParseAutoDimMode payload with
    | some m => Room_Logic_SetAutoDimMode m now s
    | none => s
  else s

/-- ReadTemperatureSensor of DHT.cpp lines 27-44: a NaN reading from the DHT
driver (modelled as none) is logged and replaced by the numeric default 0.0;
a valid reading is returned unchanged. -/
def ReadTemperatureSensor (reading : Option ℚ) : ℚ :=
  match reading with
  | none => 0
  | some t => t

/-- One iteration body of Task_TemperatureSensor, thermostat_rtos.cpp lines
283-301: given the sampled value and the last reported value, store the
sample and raise TEMP_UPDATED_BIT when the change reaches
TARGET_TEMP_THRESHOLD (the outbound telemetry enqueue touches only the
network).  Returns the new state and the new last-reported value. -/
def Task_TemperatureSensor_step (temperature last_temp : ℚ)
    (st : SystemState) : SystemState × ℚ :=
  if TARGET_TEMP_THRESHOLD ≤ ratAbs (temperature - last_temp) then
    let st1 := { st with thermo := Thermostat_StoreTemp temperature st.thermo }
    let st2 := { st1 with flags := { st1.flags with temp_updated := true } }
    (st2, temperature)
  else (st, last_temp)

/-- The mode dispatch of Task_FanControl, thermostat_rtos.cpp lines 461-495:
after a wake, the task re-reads the mode and either commands the fan off
(OFF), runs Fan_Logic on its cached temperatures when both are valid (AUTO),
or re-commands the stored manual speed (MANUAL). -/
def Task_FanControl_dispatch (current_temp target_temp : ℚ)
    (temp_valid target_valid : Bool) (st : SystemState) : SystemState :=
  match Thermostat_GetMode st.thermo with
  | .THERMOSTAT_MODE_OFF =>
      { st with thermo := Thermostat_SetFanSpeed .FAN_SPEED_OFF st.thermo }
  | .THERMOSTAT_MODE_AUTO =>
      if temp_valid && target_valid then
        { st with thermo := Fan_Logic target_temp current_temp st.thermo }
      else st
  | .THERMOSTAT_MODE_MANUAL =>
      { st with thermo :=
          Thermostat_SetFanSpeed (Thermostat_GetFanSpeed st.thermo) st.thermo }

/-! Helper lemmas shared by several results. -/

/-- The fan speed selected by Fan_Logic is exactly Fan_Logic_level of its two
arguments, for every starting state. -/
theorem Fan_Logic_fan_speed (target c : ℚ) (s : Thermostat_Status_t) :
    (Fan_Logic target c s).fan_speed = Fan_Logic_level target c := by
  simp only [Fan_Logic, Fan_Logic_level, updateLEDs]
  split_ifs <;> rfl

/-- String equality (boolean) is false when the ASCII lower-casings differ. -/
theorem beq_lit_false {p q r : String} (h1 : strLower p = r)
    (h2 : r ≠ strLower q) : (p == q) = false := by
  refine beq_eq_false_iff_ne.mpr ?_
  intro e
  subst e
  exact h2 h1.symm

/-- Evaluation of strCaseEq under a known lower-casing of the first
argument. -/
theorem strCaseEq_of_strLower {p : String} (r q : String)
    (h : strLower p = r) : strCaseEq p q = (r == strLower q) := by
  simp [strCaseEq, h]

/-! Claim C1. -/

/-- Claim C1 (code bug): setting the thermostat mode to OFF is claimed to
force the fan to FAN_SPEED_OFF immediately and synchronously, but
Thermostat_SetMode only records the mode.  Starting from MANUAL mode with the
fan at HIGH, the call leaves the fan at HIGH; moreover even the deferred
Control-Task path (whose own debug log reads Mode=OFF, Fan OFF) calls
Thermostat_SetFanSpeed(FAN_SPEED_OFF), which is itself gated on MANUAL mode
and is therefore a no-op in OFF mode, so the fan never turns off.  The room
instance, by contrast, does force its outputs off synchronously. -/
theorem c1_thermostat_setmode_off_leaves_fan_running :
    (Thermostat_SetMode .THERMOSTAT_MODE_OFF
        { temperature := 24, humidity := 50, target_temp := 22
        , fan_speed := .FAN_SPEED_HIGH, mode := .THERMOSTAT_MODE_MANUAL
        , heating := false, led_low := false, led_med := false
        , led_high := true }).fan_speed = .FAN_SPEED_HIGH
    ∧ (Task_FanControl_dispatch 24 22 true true
        { thermo := Thermostat_SetMode .THERMOSTAT_MODE_OFF
            { temperature := 24, humidity := 50, target_temp := 22
            , fan_speed := .FAN_SPEED_HIGH, mode := .THERMOSTAT_MODE_MANUAL
            , heating := false, led_low := false, led_med := false
            , led_high := true }
        , room := room_status_init
        , flags := flags_init }).thermo.fan_speed = .FAN_SPEED_HIGH
    ∧ (Room_Logic_SetMode .ROOM_MODE_OFF 0
        { room_status_init with
            led1_state := .ROOM_LED_ON, led2_state := .ROOM_LED_ON,
            pwm1 := 255, pwm2 := 255 }).pwm1 = 0 :=
  ⟨rfl, rfl, rfl⟩

/-! Claim C2. -/

/-- Claim C2 (counterexample): the claimed gating rule says a write from the
automatic algorithm is accepted only in AUTO mode, yet in MANUAL mode
Room_Logic_SetLED accepts a write whose source is ROOM_CONTROL_AUTO: from the
initial room state (MANUAL mode, LED1 off) the write flips LED1 on. -/
theorem c2_auto_source_write_accepted_in_manual_mode :
    room_status_init.mode = .ROOM_MODE_MANUAL
    ∧ room_status_init.led1_state = .ROOM_LED_OFF
    ∧ (Room_Logic_SetLED .ROOM_LED_1 .ROOM_LED_ON .ROOM_CONTROL_AUTO
        room_status_init).led1_state = .ROOM_LED_ON :=
  ⟨rfl, rfl, rfl⟩

/-- Claim C2 (amended): the write gating actually implemented is: the room
mutator rejects every write in OFF mode, rejects non-automatic sources in
AUTO mode, and accepts every source (including the automatic algorithm) in
MANUAL mode; the thermostat manual mutator accepts a write exactly when the
mode is MANUAL.  In particular an explicit (button/network) set-manual-output
is a no-op whenever the mode is not MANUAL. -/
theorem c2_write_gating (s : Room_Status_t) (led : Room_LED_t)
    (state : Room_LED_State_t) (source : Room_ControlSource_t)
    (t : Thermostat_Status_t) (sp : Fan_Speed_t) :
    (s.mode = .ROOM_MODE_OFF → Room_Logic_SetLED led state source s = s)
    ∧ (s.mode = .ROOM_MODE_AUTO → source ≠ .ROOM_CONTROL_AUTO →
        Room_Logic_SetLED led state source s = s)
    ∧ (s.mode = .ROOM_MODE_MANUAL →
        (Room_Logic_SetLED .ROOM_LED_1 state source s).led1_state = state)
    ∧ (s.mode = .ROOM_MODE_AUTO → source = .ROOM_CONTROL_AUTO →
        (Room_Logic_SetLED .ROOM_LED_1 state source s).led1_state = state)
    ∧ (t.mode ≠ .THERMOSTAT_MODE_MANUAL → Thermostat_SetFanSpeed sp t = t)
    ∧ (t.mode = .THERMOSTAT_MODE_MANUAL →
        (Thermostat_SetFanSpeed sp t).fan_speed = sp) := by
  refine ⟨?_, ?_, ?_, ?_, ?_, ?_⟩
  · intro h
    simp [Room_Logic_SetLED, h]
  · intro h hs
    simp [Room_Logic_SetLED, h, hs]
  · intro h
    simp [Room_Logic_SetLED, Room_Logic_ApplyLEDState, h]
  · intro h hs
    simp [Room_Logic_SetLED, Room_Logic_ApplyLEDState, h, hs]
  · intro h
    simp [Thermostat_SetFanSpeed, h]
  · intro h
    simp [Thermostat_SetFanSpeed, updateLEDs, h]
    split <;> rfl

/-- Claim C2 witness: the amended gating applied at concrete inputs: an MQTT
write in MANUAL mode lands, and a manual fan-speed write in AUTO mode (the
initial thermostat mode) is a no-op. -/
theorem c2_write_gating_witness :
    (Room_Logic_SetLED .ROOM_LED_1 .ROOM_LED_ON .ROOM_CONTROL_MQTT
        room_status_init).led1_state = .ROOM_LED_ON
    ∧ Thermostat_SetFanSpeed .FAN_SPEED_HIGH g_status_init = g_status_init :=
  ⟨(c2_write_gating room_status_init .ROOM_LED_1 .ROOM_LED_ON
      .ROOM_CONTROL_MQTT g_status_init .FAN_SPEED_HIGH).2.2.1 rfl,
   (c2_write_gating room_status_init .ROOM_LED_1 .ROOM_LED_ON
      .ROOM_CONTROL_MQTT g_status_init .FAN_SPEED_HIGH).2.2.2.2.1 (by decide)⟩

/-! Claim C3. -/

/-- Claim C3: for every target value within [POT_TO_TEMP_MIN, POT_TO_TEMP_MAX]
= [15, 35], Thermostat_SetTargetTemp makes a subsequent
Thermostat_GetTargetTemp return that value; for every value outside the range
the call leaves the state unchanged; and the stored target stays within the
valid range, starting from the initial value 22. -/
theorem c3_target_temp_set_get_range (s : Thermostat_Status_t) (t : ℚ) :
    (POT_TO_TEMP_MIN ≤ t ∧ t ≤ POT_TO_TEMP_MAX →
      Thermostat_GetTargetTemp (Thermostat_SetTargetTemp t s).1 = t)
    ∧ (¬(POT_TO_TEMP_MIN ≤ t ∧ t ≤ POT_TO_TEMP_MAX) →
      (Thermostat_SetTargetTemp t s).1 = s)
    ∧ (POT_TO_TEMP_MIN ≤ s.target_temp ∧ s.target_temp ≤ POT_TO_TEMP_MAX →
      POT_TO_TEMP_MIN ≤ (Thermostat_SetTargetTemp t s).1.target_temp
        ∧ (Thermostat_SetTargetTemp t s).1.target_temp ≤ POT_TO_TEMP_MAX)
    ∧ (POT_TO_TEMP_MIN ≤ g_status_init.target_temp
        ∧ g_status_init.target_temp ≤ POT_TO_TEMP_MAX) := by
  refine ⟨?_, ?_, ?_, ?_⟩
  · intro h
    by_cases hne : s.target_temp ≠ t
    · simp [Thermostat_SetTargetTemp, Thermostat_GetTargetTemp, h, hne]
    · push_neg at hne
      simp [Thermostat_SetTargetTemp, Thermostat_GetTargetTemp, h, hne]
  · intro h
    simp [Thermostat_SetTargetTemp, h]
  · intro h
    by_cases hr : POT_TO_TEMP_MIN ≤ t ∧ t ≤ POT_TO_TEMP_MAX
    · by_cases hne : s.target_temp ≠ t
      · simp [Thermostat_SetTargetTemp, hr, hne]
      · push_neg at hne
        simp [Thermostat_SetTargetTemp, hr, hne, hne ▸ h]
    · simpa [Thermostat_SetTargetTemp, hr] using h
  · norm_num [g_status_init, POT_TO_TEMP_MIN, POT_TO_TEMP_MAX]

/-- Claim C3 witness: the theorem applied at the initial state with the
in-range value 24 and the out-of-range value 40. -/
theorem c3_target_temp_set_get_range_witness :
    Thermostat_GetTargetTemp (Thermostat_SetTargetTemp 24 g_status_init).1 = 24
    ∧ (Thermostat_SetTargetTemp 40 g_status_init).1 = g_status_init :=
  ⟨(c3_target_temp_set_get_range g_status_init 24).1
      (by norm_num [POT_TO_TEMP_MIN, POT_TO_TEMP_MAX]),
   (c3_target_temp_set_get_range g_status_init 40).2.1
      (by norm_num [POT_TO_TEMP_MIN, POT_TO_TEMP_MAX])⟩

/-! Claim C4. -/

/-- Claim C4: the AUTO actuation mapping is a pure function of its two
arguments (Fan_Logic installs exactly Fan_Logic_level of target and current,
whatever the prior state), it is monotone in the absolute error (a larger
error never yields a strictly lower level), and an error exactly on the
deadband boundary 0.5 resolves to FAN_SPEED_OFF. -/
theorem c4_fan_logic_pure_and_monotone (s : Thermostat_Status_t)
    (target c c1 c2 : ℚ) :
    ((Fan_Logic target c s).fan_speed = Fan_Logic_level target c)
    ∧ (ratAbs (target - c1) ≤ ratAbs (target - c2) →
        fanLevel (Fan_Logic_level target c1) ≤ fanLevel (Fan_Logic_level target c2))
    ∧ (ratAbs (target - c) = 1/2 → Fan_Logic_level target c = .FAN_SPEED_OFF) := by
  refine ⟨Fan_Logic_fan_speed target c s, ?_, ?_⟩
  · intro h
    rw [ratAbs_eq_abs, ratAbs_eq_abs, abs_sub_comm target c1, abs_sub_comm target c2] at h
    simp only [Fan_Logic_level, ratAbs_eq_abs]
    split_ifs <;> simp [fanLevel] <;> linarith
  · intro h
    rw [ratAbs_eq_abs, abs_sub_comm target c] at h
    simp only [Fan_Logic_level, ratAbs_eq_abs, h]
    norm_num

/-- Claim C4 witness: monotonicity applied at target 24 with errors 1 and 4,
and the boundary case applied at current 23.5. -/
theorem c4_fan_logic_pure_and_monotone_witness :
    fanLevel (Fan_Logic_level 24 23) ≤ fanLevel (Fan_Logic_level 24 20)
    ∧ Fan_Logic_level 24 (47/2) = .FAN_SPEED_OFF :=
  ⟨(c4_fan_logic_pure_and_monotone g_status_init 24 0 23 20).2.1
      (by norm_num [ratAbs]),
   (c4_fan_logic_pure_and_monotone g_status_init 24 (47/2) 0 0).2.2
      (by norm_num [ratAbs])⟩

/-! Claim C5. -/

/-- Claim C5 (counterexample): switching the thermostat from MANUAL to AUTO
with target 24 and current 20 is claimed to recompute the output to the level
for delta 4 (FAN_SPEED_HIGH) within the call itself, but Thermostat_SetMode
leaves the fan speed untouched (here FAN_SPEED_OFF), while the deterministic
AUTO function maps (24, 20) to FAN_SPEED_HIGH. -/
theorem c5_setmode_auto_does_not_recompute :
    (Thermostat_SetMode .THERMOSTAT_MODE_AUTO
        { temperature := 20, humidity := 50, target_temp := 24
        , fan_speed := .FAN_SPEED_OFF, mode := .THERMOSTAT_MODE_MANUAL
        , heating := false, led_low := false, led_med := false
        , led_high := false }).fan_speed = .FAN_SPEED_OFF
    ∧ Fan_Logic_level 24 20 = .FAN_SPEED_HIGH :=
  ⟨rfl, by norm_num [Fan_Logic_level, ratAbs]⟩

/-- Claim C5 (amended): Thermostat_SetMode only records the mode (the whole
state change is the mode field), so the AUTO recomputation happens only at
the next Control-Task wake, where the dispatch in AUTO mode with valid data
installs exactly the deterministic level Fan_Logic_level; the room instance
does recompute within Room_Logic_SetMode(AUTO), turning both LEDs on and
installing the LDR-derived brightness, provided its 100 ms throttle has
elapsed and the computed brightness differs from the stored one. -/
theorem c5_auto_recompute_deferred_thermostat_immediate_room
    (m : Thermostat_Mode_t) (s : Thermostat_Status_t) (st : SystemState)
    (c t : ℚ) (r : Room_Status_t) (now : Nat) :
    (Thermostat_SetMode m s = { s with mode := m })
    ∧ (st.thermo.mode = .THERMOSTAT_MODE_AUTO →
        (Task_FanControl_dispatch c t true true st).thermo.fan_speed =
          Fan_Logic_level t c)
    ∧ (100 ≤ now - r.last_brightness_update →
        Room_Logic_CalculateBrightness r.ldr_percentage ≠ r.led1_brightness →
        (Room_Logic_SetMode .ROOM_MODE_AUTO now r).led1_state = .ROOM_LED_ON
        ∧ (Room_Logic_SetMode .ROOM_MODE_AUTO now r).led2_state = .ROOM_LED_ON
        ∧ (Room_Logic_SetMode .ROOM_MODE_AUTO now r).led1_brightness =
            Room_Logic_CalculateBrightness r.ldr_percentage
        ∧ (Room_Logic_SetMode .ROOM_MODE_AUTO now r).pwm1 =
            Room_Logic_CalculateBrightness r.ldr_percentage) := by
  refine ⟨rfl, ?_, ?_⟩
  · intro h
    simp only [Task_FanControl_dispatch, Thermostat_GetMode, h]
    exact Fan_Logic_fan_speed t c st.thermo
  · intro hthrottle hdiff
    have hnl : ¬ (now - r.last_brightness_update < 100) := not_lt.mpr hthrottle
    simp [Room_Logic_SetMode, Room_Logic_UpdateAutoMode, hnl, hdiff,
      Room_Logic_ApplyLEDState]

/-- Claim C5 witness: the amended statement applied at the concrete MANUAL
state of the counterexample scenario (dispatch computes HIGH for delta 4) and
at a concrete room state with LDR at 50 percent. -/
theorem c5_auto_recompute_witness :
    (Task_FanControl_dispatch 20 24 true true
        { thermo := { g_status_init with temperature := 20, target_temp := 24 }
        , room := room_status_init
        , flags := flags_init }).thermo.fan_speed = Fan_Logic_level 24 20
    ∧ (Room_Logic_SetMode .ROOM_MODE_AUTO 100
        { room_status_init with ldr_percentage := 50 }).led1_brightness =
        Room_Logic_CalculateBrightness 50 :=
  ⟨(c5_auto_recompute_deferred_thermostat_immediate_room
      .THERMOSTAT_MODE_AUTO g_status_init
      { thermo := { g_status_init with temperature := 20, target_temp := 24 }
      , room := room_status_init, flags := flags_init }
      20 24 room_status_init 0).2.1 rfl,
   ((c5_auto_recompute_deferred_thermostat_immediate_room
      .THERMOSTAT_MODE_AUTO g_status_init
      { thermo := g_status_init, room := room_status_init, flags := flags_init }
      20 24 { room_status_init with ldr_percentage := 50 } 100).2.2
      (by decide) (by decide)).2.2.1⟩

/-! Claim C6. -/

/-- Claim C6 (counterexample): the ingress handler is claimed to reject every
unrecognized string payload with no state change, but on the thermostat mode
topic the payload banana is mapped by ParseMode to the default
THERMOSTAT_MODE_OFF and stored: starting from AUTO mode, the stored mode
becomes OFF. -/
theorem c6_unrecognized_mode_payload_changes_mode :
    g_status_init.mode = .THERMOSTAT_MODE_AUTO
    ∧ (MQTT_MessageCallback MQTT_TOPIC_CONTROL "banana" 0
        { thermo := g_status_init, room := room_status_init
        , flags := flags_init }).thermo.mode = .THERMOSTAT_MODE_OFF := by
  exact ⟨rfl, by decide⟩

/-- Claim C6 (amended): unrecognized payloads on the room topics are rejected
with no state change, but on the thermostat mode topic the stored mode always
becomes ParseMode of the payload, and ParseMode maps every payload outside
the off/auto/manual vocabulary to the default THERMOSTAT_MODE_OFF. -/
theorem c6_ingress_validation (st : SystemState) (now : Nat) (p : String) :
    (Room_Logic_ParseMode p = none →
      MQTT_MessageCallback ROOM_TOPIC_MODE_CTRL p now st = st)
    ∧ (Room_Logic_ParseLEDState p = none →
      MQTT_MessageCallback ROOM_TOPIC_LED1_CTRL p now st = st)
    ∧ (Room_Logic_ParseLEDState p = none →
      MQTT_MessageCallback ROOM_TOPIC_LED2_CTRL p now st = st)
    ∧ ((MQTT_MessageCallback MQTT_TOPIC_CONTROL p now st).thermo.mode =
        ParseMode p)
    ∧ (strCaseEq p "off" = false → strCaseEq p "auto" = false →
        strCaseEq p "manual" = false → ParseMode p = .THERMOSTAT_MODE_OFF) := by
  have t1 : ¬(ROOM_TOPIC_MODE_CTRL = MQTT_TOPIC_TARGET) := by decide
  have t2 : ¬(ROOM_TOPIC_MODE_CTRL = MQTT_TOPIC_CONTROL) := by decide
  have t3 : ¬(ROOM_TOPIC_MODE_CTRL = MQTT_TOPIC_SET_SPEED) := by decide
  have u1 : ¬(ROOM_TOPIC_LED1_CTRL = MQTT_TOPIC_TARGET) := by decide
  have u2 : ¬(ROOM_TOPIC_LED1_CTRL = MQTT_TOPIC_CONTROL) := by decide
  have u3 : ¬(ROOM_TOPIC_LED1_CTRL = MQTT_TOPIC_SET_SPEED) := by decide
  have u4 : ¬(ROOM_TOPIC_LED1_CTRL = ROOM_TOPIC_MODE_CTRL) := by decide
  have v1 : ¬(ROOM_TOPIC_LED2_CTRL = MQTT_TOPIC_TARGET) := by decide
  have v2 : ¬(ROOM_TOPIC_LED2_CTRL = MQTT_TOPIC_CONTROL) := by decide
  have v3 : ¬(ROOM_TOPIC_LED2_CTRL = MQTT_TOPIC_SET_SPEED) := by decide
  have v4 : ¬(ROOM_TOPIC_LED2_CTRL = ROOM_TOPIC_MODE_CTRL) := by decide
  have v5 : ¬(ROOM_TOPIC_LED2_CTRL = ROOM_TOPIC_LED1_CTRL) := by decide
  have w1 : ¬(MQTT_TOPIC_CONTROL = MQTT_TOPIC_TARGET) := by decide
  refine ⟨?_, ?_, ?_, ?_, ?_⟩
  · intro h
    simp [MQTT_MessageCallback, h, t1, t2, t3]
  · intro h
    by_cases hm : Room_Logic_GetMode st.room = .ROOM_MODE_MANUAL <;>
      simp [MQTT_MessageCallback, h, hm, u1, u2, u3, u4]
  · intro h
    by_cases hm : Room_Logic_GetMode st.room = .ROOM_MODE_MANUAL <;>
      simp [MQTT_MessageCallback, h, hm, v1, v2, v3, v4, v5]
  · simp [MQTT_MessageCallback, thermostatMqttModeEventSet, Thermostat_SetMode, w1]
  · intro h1 h2 h3
    simp [ParseMode, h1, h2, h3]

/-- Claim C6 witness: the amended statement applied at the payload banana,
which every parser rejects. -/
theorem c6_ingress_validation_witness :
    MQTT_MessageCallback ROOM_TOPIC_MODE_CTRL "banana" 0
      { thermo := g_status_init, room := room_status_init, flags := flags_init } =
      { thermo := g_status_init, room := room_status_init, flags := flags_init }
    ∧ ParseMode "banana" = .THERMOSTAT_MODE_OFF :=
  ⟨(c6_ingress_validation
      { thermo := g_status_init, room := room_status_init, flags := flags_init }
      0 "banana").1 (by decide),
   (c6_ingress_validation
      { thermo := g_status_init, room := room_status_init, flags := flags_init }
      0 "banana").2.2.2.2 (by decide) (by decide) (by decide)⟩

/-! Claim C7. -/

/-- Claim C7 (counterexample): LED-state payloads are claimed to be matched
case-insensitively for every recognized token, but the parser compares "ON"
and "OFF" with strcmp: the lowercase payloads on and off (and the mixed-case
On) are rejected as invalid while "ON" is accepted. -/
theorem c7_lowercase_on_rejected :
    Room_Logic_ParseLEDState "on" = none
    ∧ Room_Logic_ParseLEDState "off" = none
    ∧ Room_Logic_ParseLEDState "On" = none
    ∧ Room_Logic_ParseLEDState "ON" = some .ROOM_LED_ON := by
  decide

/-- Claim C7 (amended): the LED-state parser matches "true"/"yes" (to ON) and
"false"/"no" (to OFF) case-insensitively — any casing of these four tokens is
accepted — but matches "ON", "1", "OFF", "0" only exactly, so other casings of
on/off are rejected. -/
theorem c7_parse_led_state_casing (p : String) :
    (strLower p = "true" → Room_Logic_ParseLEDState p = some .ROOM_LED_ON)
    ∧ (strLower p = "yes" → Room_Logic_ParseLEDState p = some .ROOM_LED_ON)
    ∧ (strLower p = "false" → Room_Logic_ParseLEDState p = some .ROOM_LED_OFF)
    ∧ (strLower p = "no" → Room_Logic_ParseLEDState p = some .ROOM_LED_OFF)
    ∧ Room_Logic_ParseLEDState "ON" = some .ROOM_LED_ON
    ∧ Room_Logic_ParseLEDState "1" = some .ROOM_LED_ON
    ∧ Room_Logic_ParseLEDState "OFF" = some .ROOM_LED_OFF
    ∧ Room_Logic_ParseLEDState "0" = some .ROOM_LED_OFF := by
  refine ⟨?_, ?_, ?_, ?_, by decide, by decide, by decide, by decide⟩
  · intro h
    have hc : strCaseEq p "true" = true := by
      rw [strCaseEq_of_strLower "true" "true" h]; decide
    simp [Room_Logic_ParseLEDState, hc]
  · intro h
    have hc : strCaseEq p "yes" = true := by
      rw [strCaseEq_of_strLower "yes" "yes" h]; decide
    simp [Room_Logic_ParseLEDState, hc]
  · intro h
    have hON : (p == "ON") = false := beq_lit_false h (by decide)
    have h1 : (p == "1") = false := beq_lit_false h (by decide)
    have ht : strCaseEq p "true" = false := by
      rw [strCaseEq_of_strLower "false" "true" h]; decide
    have hy : strCaseEq p "yes" = false := by
      rw [strCaseEq_of_strLower "false" "yes" h]; decide
    have hf : strCaseEq p "false" = true := by
      rw [strCaseEq_of_strLower "false" "false" h]; decide
    simp [Room_Logic_ParseLEDState, hON, h1, ht, hy, hf]
  · intro h
    have hON : (p == "ON") = false := beq_lit_false h (by decide)
    have h1 : (p == "1") = false := beq_lit_false h (by decide)
    have ht : strCaseEq p "true" = false := by
      rw [strCaseEq_of_strLower "no" "true" h]; decide
    have hy : strCaseEq p "yes" = false := by
      rw [strCaseEq_of_strLower "no" "yes" h]; decide
    have hn : strCaseEq p "no" = true := by
      rw [strCaseEq_of_strLower "no" "no" h]; decide
    simp [Room_Logic_ParseLEDState, hON, h1, ht, hy, hn]

/-- Claim C7 witness: the amended parser behavior applied at the concrete
casings TRUE, Yes, FALSE and No. -/
theorem c7_parse_led_state_casing_witness :
    Room_Logic_ParseLEDState "TRUE" = some .ROOM_LED_ON
    ∧ Room_Logic_ParseLEDState "Yes" = some .ROOM_LED_ON
    ∧ Room_Logic_ParseLEDState "FALSE" = some .ROOM_LED_OFF
    ∧ Room_Logic_ParseLEDState "No" = some .ROOM_LED_OFF :=
  ⟨(c7_parse_led_state_casing "TRUE").1 (by decide),
   (c7_parse_led_state_casing "Yes").2.1 (by decide),
   (c7_parse_led_state_casing "FALSE").2.2.1 (by decide),
   (c7_parse_led_state_casing "No").2.2.2.1 (by decide)⟩

/-! Claim C8. -/

/-- Claim C8 (counterexample): a NaN temperature reading is claimed to leave
the Store untouched with no flag raised, but ReadTemperatureSensor substitutes
the numeric default 0.0 for a NaN reading, and feeding that into the sampling
step with a last-known-good value of 25 stores 0 into the Store and raises
the reading-updated flag. -/
theorem c8_nan_read_substitutes_zero_and_writes :
    ReadTemperatureSensor none = 0
    ∧ (Task_TemperatureSensor_step (ReadTemperatureSensor none) 25
        { thermo := { g_status_init with temperature := 25 }
        , room := room_status_init
        , flags := flags_init }).1.thermo.temperature = 0
    ∧ (Task_TemperatureSensor_step (ReadTemperatureSensor none) 25
        { thermo := { g_status_init with temperature := 25 }
        , room := room_status_init
        , flags := flags_init }).1.flags.temp_updated = true := by
  refine ⟨rfl, ?_, ?_⟩ <;>
    norm_num [Task_TemperatureSensor_step, ReadTemperatureSensor, ratAbs,
      TARGET_TEMP_THRESHOLD, Thermostat_StoreTemp, g_status_init, flags_init]

/-- Claim C8 (amended): on a NaN reading the sensor function logs and returns
the default 0.0 instead of signalling failure (a valid reading is returned
unchanged), and the sampling step stores whatever value it is handed — raising
the reading-updated flag — whenever it differs from the last reported value by
at least TARGET_TEMP_THRESHOLD, so a failed reading is indistinguishable from
a genuine reading of 0 degrees. -/
theorem c8_nan_read_behavior (v last : ℚ) (st : SystemState) :
    ReadTemperatureSensor none = 0
    ∧ ReadTemperatureSensor (some v) = v
    ∧ (TARGET_TEMP_THRESHOLD ≤ ratAbs (v - last) →
        (Task_TemperatureSensor_step v last st).1.thermo.temperature = v
        ∧ (Task_TemperatureSensor_step v last st).1.flags.temp_updated = true
        ∧ (Task_TemperatureSensor_step v last st).2 = v)
    ∧ (ratAbs (v - last) < TARGET_TEMP_THRESHOLD →
        Task_TemperatureSensor_step v last st = (st, last)) := by
  refine ⟨rfl, rfl, ?_, ?_⟩
  · intro h
    have hs : (Task_TemperatureSensor_step v last st).1.thermo.temperature = v := by
      simp only [Task_TemperatureSensor_step, if_pos h]
      by_cases he : st.thermo.temperature ≠ v
      · simp [Thermostat_StoreTemp, he]
      · push_neg at he
        simp [Thermostat_StoreTemp, he]
    exact ⟨hs, by simp [Task_TemperatureSensor_step, if_pos h],
      by simp [Task_TemperatureSensor_step, if_pos h]⟩
  · intro h
    simp [Task_TemperatureSensor_step, not_le.mpr h]

/-- Claim C8 witness: the amended behavior applied at the substituted NaN
value 0 against a last-known-good 25 (stores and flags), and at an unchanged
reading of 25 (no-op). -/
theorem c8_nan_read_behavior_witness :
    (Task_TemperatureSensor_step 0 25
      { thermo := g_status_init, room := room_status_init
      , flags := flags_init }).1.thermo.temperature = 0
    ∧ Task_TemperatureSensor_step 25 25
        { thermo := g_status_init, room := room_status_init
        , flags := flags_init } =
      ({ thermo := g_status_init, room := room_status_init
       , flags := flags_init }, 25) :=
  ⟨((c8_nan_read_behavior 0 25
      { thermo := g_status_init, room := room_status_init
      , flags := flags_init }).2.2.1
      (by norm_num [ratAbs, TARGET_TEMP_THRESHOLD])).1,
   (c8_nan_read_behavior 25 25
      { thermo := g_status_init, room := room_status_init
      , flags := flags_init }).2.2.2
      (by norm_num [ratAbs, TARGET_TEMP_THRESHOLD])⟩

/-! Claim C9. -/

/-- Claim C9: updateLEDs records its argument as the current fan speed; for
each of LOW, MEDIUM and HIGH it drives exactly that indicator LED on and the
other two off; and for FAN_SPEED_OFF it performs no LED writes at all, so all
three LED pins keep their prior values. -/
theorem c9_update_leds_frame (s : Thermostat_Status_t) (speed : Fan_Speed_t) :
    ((updateLEDs speed s).fan_speed = speed)
    ∧ ((updateLEDs .FAN_SPEED_LOW s).led_low = true
        ∧ (updateLEDs .FAN_SPEED_LOW s).led_med = false
        ∧ (updateLEDs .FAN_SPEED_LOW s).led_high = false)
    ∧ ((updateLEDs .FAN_SPEED_MEDIUM s).led_low = false
        ∧ (updateLEDs .FAN_SPEED_MEDIUM s).led_med = true
        ∧ (updateLEDs .FAN_SPEED_MEDIUM s).led_high = false)
    ∧ ((updateLEDs .FAN_SPEED_HIGH s).led_low = false
        ∧ (updateLEDs .FAN_SPEED_HIGH s).led_med = false
        ∧ (updateLEDs .FAN_SPEED_HIGH s).led_high = true)
    ∧ ((updateLEDs .FAN_SPEED_OFF s).led_low = s.led_low
        ∧ (updateLEDs .FAN_SPEED_OFF s).led_med = s.led_med
        ∧ (updateLEDs .FAN_SPEED_OFF s).led_high = s.led_high) := by
  refine ⟨?_, ⟨rfl, rfl, rfl⟩, ⟨rfl, rfl, rfl⟩, ⟨rfl, rfl, rfl⟩, ⟨rfl, rfl, rfl⟩⟩
  cases speed <;> rfl

/-! Claim C10. -/

/-- Claim C10: Thermostat_SetTargetTemp returns true exactly when its argument
is in range and differs from the stored target, and the MQTT ingress callback
of hal_mqtt.cpp lines 58-79 raises the target-from-network flag exactly when
that call returned true (the flag afterwards is its prior value OR the change
report). -/
theorem c10_set_target_result_and_flag (s : Thermostat_Status_t) (t : ℚ)
    (st : SystemState) (payload : String) :
    ((Thermostat_SetTargetTemp t s).2 = true ↔
      (POT_TO_TEMP_MIN ≤ t ∧ t ≤ POT_TO_TEMP_MAX ∧ s.target_temp ≠ t))
    ∧ ((mqttCallback MQTT_TOPIC_TARGET payload st).flags.target_from_mqtt =
        (st.flags.target_from_mqtt ||
          (Thermostat_SetTargetTemp (atofQ payload) st.thermo).2)) := by
  constructor
  · simp only [Thermostat_SetTargetTemp]
    split_ifs with h1 h2
    · simp [h1.1, h1.2, h2]
    · simp at h2
      simp [h2]
    · simp [h1]
      tauto
  · cases hb : (Thermostat_SetTargetTemp (atofQ payload) st.thermo).2 <;>
      simp [mqttCallback, thermostatMqttEventSet, hb]

/-- Claim C10 witness: the characterization applied at the initial state: the
in-range differing value 24 is accepted (returns true), and re-writing the
stored value 22 returns false. -/
theorem c10_set_target_result_and_flag_witness :
    (Thermostat_SetTargetTemp 24 g_status_init).2 = true
    ∧ (Thermostat_SetTargetTemp 22 g_status_init).2 ≠ true :=
  ⟨(c10_set_target_result_and_flag g_status_init 24
      { thermo := g_status_init, room := room_status_init
      , flags := flags_init } "24").1.mpr
      ⟨by norm_num [POT_TO_TEMP_MIN], by norm_num [POT_TO_TEMP_MAX],
       by norm_num [g_status_init]⟩,
   fun hc =>
     absurd ((c10_set_target_result_and_flag g_status_init 22
        { thermo := g_status_init, room := room_status_init
        , flags := flags_init } "22").1.mp hc).2.2
       (by norm_num [g_status_init])⟩
